import Mathlib

set_option maxRecDepth 8000

/-!
Shallow embedding of the CR1337/dmx-controller repository
(`ftdi_dmx_interface.py` and `dmx_controller.py`) and proofs about it.

Modelling conventions:
* Device side effects (FTDI line-property calls, `nanosleep`, serial writes)
  are recorded as an explicit ordered trace of `DmxAction`s.
* Python exceptions become `DmxError` values paired with the state as it was
  when the exception was raised (a `raise` before any assignment leaves the
  state untouched, which the translation makes explicit).
* Python `int` becomes `Int`; list indices become `Nat`.  Program timestamps
  (Python `float` dictionary keys) are modelled as exact rationals `ℚ`: only
  their linear order matters to the scheduler.
* The `sched.scheduler` event queue (a heap of events ordered by
  `(time, priority)`, where `run()` passes the enumeration index as the
  priority) is modelled by sorting the enumerated entries with a total order
  on `(time, index)`; all indices are distinct, so the sorted sequence is the
  unique firing order of the heap.
-/

/-- Python exception surface of the program: `rangeError` embeds the
`ValueError` raised for an out-of-range channel or value, `notLoadedError`
embeds `RuntimeError("No program loaded.")` raised by `run()` before `load()`,
and `attributeError` embeds Python's `AttributeError` for a lookup of an
attribute a class does not define. -/
inductive DmxError where
  | rangeError (msg : String)
  | notLoadedError (msg : String)
  | attributeError (msg : String)
  deriving Repr, DecidableEq

/-- The `struct timespec` passed to `libc.nanosleep` (class `Timespec` in
`ftdi_dmx_interface.py`). -/
structure Timespec where
  seconds : Nat
  nanoseconds : Nat
  deriving Repr, DecidableEq

/-- Total requested sleep duration of a `Timespec`, in nanoseconds. -/
def Timespec.totalNs (t : Timespec) : Nat :=
  t.seconds * 1000000000 + t.nanoseconds

/-- One observable device-side effect: an `ftdi_set_line_property2` call
(carrying bits, stop bits, parity, break flag), a `nanosleep` call, or a
serial `write` of a byte sequence. -/
inductive DmxAction where
  | set_line_property2 (bits stopBits parity breakFlag : Nat)
  | nanosleep (t : Timespec)
  | write (data : List Int)
  deriving Repr, DecidableEq

/-- The `write` payloads of a trace, in order. -/
def writesOf (acts : List DmxAction) : List (List Int) :=
  acts.filterMap fun a =>
    match a with
    | .write d => some d
    | _ => none

/-- Whether an action is a serial `write` (one `write` per `render`). -/
def DmxAction.isWrite : DmxAction → Bool
  | .write _ => true
  | _ => false

namespace FtdiDmxInterface

def MS_PER_S : Nat := 1000000
def NS_PER_MS : Nat := 1000
def US_PER_MS : Nat := 1000
def BAUDRATE : Nat := 250000
def BITS_8 : Nat := 8
def STOP_BITS_2 : Nat := 2
def PARITY_NONE : Nat := 0
def BREAK_OFF : Nat := 0
def BREAK_ON : Nat := 1
def CHANNEL_RANGE : Int × Int := (1, 512)
def VALUE_RANGE : Int × Int := (0, 255)

/-- Embedding of `FtdiDmxInterface._wait_us`: the `Timespec` it hands to
`nanosleep` (`seconds = µs // 1_000_000`, `nanoseconds = (µs % 1_000_000) *
1_000`). -/
def _wait_us (microseconds : Nat) : Timespec :=
  { seconds := microseconds / MS_PER_S,
    nanoseconds := (microseconds % MS_PER_S) * NS_PER_MS }

/-- Embedding of `FtdiDmxInterface._wait_ms`, which calls
`_wait_us(milliseconds * US_PER_MS)`. -/
def _wait_ms (milliseconds : Nat) : Timespec :=
  _wait_us (milliseconds * US_PER_MS)

/-- Mutable state of an `FtdiDmxInterface` object: the channel buffer
`_dmx_channels` and the watermark `_highest_updated_channel`. -/
structure State where
  _dmx_channels : List Int
  _highest_updated_channel : Nat
  deriving Repr, DecidableEq

/-- Embedding of `FtdiDmxInterface.reset`: `_dmx_channels = [0] * 513`,
`_highest_updated_channel = 512`.  Both fields are overwritten, so the prior
state is ignored. -/
def reset (_s : State) : State :=
  { _dmx_channels := List.replicate (CHANNEL_RANGE.2.toNat + 1) 0,
    _highest_updated_channel := CHANNEL_RANGE.2.toNat }

/-- Embedding of `FtdiDmxInterface.set_channel`.  The two `raise ValueError`
statements precede every assignment, so on error the returned state is the
input state unchanged. -/
def set_channel (s : State) (channel value : Int) : State × Option DmxError :=
  if ¬ (CHANNEL_RANGE.1 ≤ channel ∧ channel ≤ CHANNEL_RANGE.2) then
    (s, some (.rangeError s!"Channel {channel} out of range."))
  else if ¬ (VALUE_RANGE.1 ≤ value ∧ value ≤ VALUE_RANGE.2) then
    (s, some (.rangeError s!"Value {value} out of range."))
  else
    ({ _dmx_channels := s._dmx_channels.set channel.toNat value,
       _highest_updated_channel := max s._highest_updated_channel channel.toNat },
     none)

/-- Embedding of `FtdiDmxInterface.get_channel`.  It reads the buffer and
never assigns, so it is a pure function of the state. -/
def get_channel (s : State) (channel : Int) : Except DmxError Int :=
  if ¬ (CHANNEL_RANGE.1 ≤ channel ∧ channel ≤ CHANNEL_RANGE.2) then
    .error (.rangeError s!"Channel {channel} out of range.")
  else
    .ok (s._dmx_channels.getD channel.toNat 0)

/-- The device-trace of one `render` transmitting `data`: break on, 96 µs
sleep, break off, 8 µs sleep, serial write, 2 ms sleep. -/
def renderActions (data : List Int) : List DmxAction :=
  [ .set_line_property2 BITS_8 STOP_BITS_2 PARITY_NONE BREAK_ON,
    .nanosleep (_wait_us 96),
    .set_line_property2 BITS_8 STOP_BITS_2 PARITY_NONE BREAK_OFF,
    .nanosleep (_wait_us 8),
    .write data,
    .nanosleep (_wait_ms 2) ]

/-- Embedding of `FtdiDmxInterface.render`: slices
`_dmx_channels[:_highest_updated_channel + 1]`, performs the framed
transmission, and finally sets `_highest_updated_channel = 0`. -/
def render (s : State) : State × List DmxAction :=
  ({ s with _highest_updated_channel := 0 },
   renderActions (s._dmx_channels.take (s._highest_updated_channel + 1)))

/-- Embedding of `FtdiDmxInterface.blackout`: `reset()` then `render()`. -/
def blackout (s : State) : State × List DmxAction :=
  render (reset s)

/-- Embedding of the state-relevant part of `FtdiDmxInterface.__init__`
(after the baud-rate and line-property configuration it calls `blackout()`;
the fields have no earlier value, modelled by an empty buffer). -/
def init : State × List DmxAction :=
  blackout { _dmx_channels := [], _highest_updated_channel := 0 }

/-- The state of a freshly constructed interface. -/
def initState : State := init.1

/-- Every attribute name defined in the class body of `FtdiDmxInterface`
(constants, methods, dunder methods).  Python attribute lookup on an
instance consults exactly these; there is no `__getattr__` fallback. -/
def classAttrs : List String :=
  ["LIBC", "MS_PER_S", "NS_PER_MS", "US_PER_MS", "BAUDRATE", "BITS_8",
   "STOP_BITS_2", "PARITY_NONE", "BREAK_OFF", "BREAK_ON", "CHANNEL_RANGE",
   "VALUE_RANGE", "_wait_us", "_wait_ms", "_ftdi_device", "_dmx_channels",
   "_highest_updated_channel", "__init__", "__del__", "reset", "set_channel",
   "get_channel", "__setitem__", "__getitem__", "blackout", "render"]

end FtdiDmxInterface

/-- A `Frame` is the sparse channel-to-value mapping of one timestamp,
in dictionary insertion order (`Dict[int, int]`). -/
abbrev Frame := List (Int × Int)

/-- A `Program` maps time offsets to frames, in dictionary insertion order
(`Dict[float, Dict[int, int]]`); timestamps modelled as exact rationals. -/
abbrev Program := List (ℚ × Frame)

namespace DmxController

/-- One scheduled event: fire time (the `delay` handed to
`scheduler.enter`), enumeration index (the `priority`), and the frame. -/
abbrev Event := ℚ × ℕ × Frame

/-- Embedding of `enumerate(self._program.items())` starting at index `i`. -/
def enumerateFrom (i : ℕ) : Program → List Event
  | [] => []
  | (t, f) :: rest => (t, i, f) :: enumerateFrom (i + 1) rest

/-- The firing (non-strict) order of `sched.scheduler`: primary key the
event time, secondary key the priority (here the enumeration index). -/
def eventLe (a b : Event) : Prop :=
  a.1 < b.1 ∨ (a.1 = b.1 ∧ a.2.1 ≤ b.2.1)

instance : DecidableRel eventLe := fun a b => by
  unfold eventLe
  exact inferInstance

/-- Strict version of `eventLe`: strictly earlier time, or equal time and
strictly smaller enumeration index. -/
def eventLt (a b : Event) : Prop :=
  a.1 < b.1 ∨ (a.1 = b.1 ∧ a.2.1 < b.2.1)

instance : IsTotal Event eventLe :=
  ⟨fun a b => by
    rcases lt_trichotomy a.1 b.1 with h | h | h
    · exact Or.inl (Or.inl h)
    · rcases Nat.le_total a.2.1 b.2.1 with h' | h'
      · exact Or.inl (Or.inr ⟨h, h'⟩)
      · exact Or.inr (Or.inr ⟨h.symm, h'⟩)
    · exact Or.inr (Or.inl h)⟩

instance : IsTrans Event eventLe :=
  ⟨fun a b c hab hbc => by
    rcases hab with h1 | ⟨h1, h1'⟩
    · rcases hbc with h2 | ⟨h2, _⟩
      · exact Or.inl (h1.trans h2)
      · exact Or.inl (h2 ▸ h1)
    · rcases hbc with h2 | ⟨h2, h2'⟩
      · exact Or.inl (h1 ▸ h2)
      · exact Or.inr ⟨h1.trans h2, h1'.trans h2'⟩⟩

/-- Embedding of the `for channel, value in data.items()` loop of
`_scheduler_callback`: each pair goes through `set_channel`
(`self._interface[channel] = value`); an exception aborts the loop with the
state as the failing call left it. -/
def applyFrame : FtdiDmxInterface.State → Frame →
    FtdiDmxInterface.State × Option DmxError
  | s, [] => (s, none)
  | s, (c, v) :: rest =>
    match FtdiDmxInterface.set_channel s c v with
    | (s', none) => applyFrame s' rest
    | (s', some e) => (s', some e)

/-- Embedding of `DmxController._scheduler_callback`: apply every pair of
the frame, then one `render()`. -/
def _scheduler_callback (s : FtdiDmxInterface.State) (data : Frame) :
    FtdiDmxInterface.State × List DmxAction × Option DmxError :=
  match applyFrame s data with
  | (s', none) =>
    match FtdiDmxInterface.render s' with
    | (s'', acts) => (s'', acts, none)
  | (s', some e) => (s', [], some e)

/-- Embedding of the call `self._interface.stop()` in `run()`: Python looks
`stop` up among the attributes of `FtdiDmxInterface`; the class defines no
such attribute, so the call raises `AttributeError` and has no effect. -/
def interfaceStopCall (s : FtdiDmxInterface.State) :
    FtdiDmxInterface.State × List DmxAction × Option DmxError :=
  if "stop" ∈ FtdiDmxInterface.classAttrs then (s, [], none)
  else (s, [], some (.attributeError
    "FtdiDmxInterface object has no attribute stop"))

/-- Result of `run()`: final interface state, device trace, the events that
fired in firing order, and the exception that escaped (if any). -/
structure RunResult where
  state : FtdiDmxInterface.State
  actions : List DmxAction
  fired : List Event
  error : Option DmxError
  deriving Repr, DecidableEq

/-- Embedding of `scheduler.run()`: pop events in `(time, priority)` order
and invoke `_scheduler_callback` on each; an exception raised by a callback
propagates, the remaining events never fire. -/
def fireEvents : FtdiDmxInterface.State → List Event →
    FtdiDmxInterface.State × List DmxAction × List Event × Option DmxError
  | s, [] => (s, [], [], none)
  | s, ev :: rest =>
    match _scheduler_callback s ev.2.2 with
    | (s', acts, some e) => (s', acts, [ev], some e)
    | (s', acts, none) =>
      match fireEvents s' rest with
      | (s'', acts', fired, err) => (s'', acts ++ acts', ev :: fired, err)

/-- Embedding of `DmxController.run`: raise
`RuntimeError("No program loaded.")` when `_program is None`; otherwise
enter one event per program entry (delay = the entry's key, priority = its
enumeration index), let the scheduler fire them all, then call
`self._interface.stop()`. -/
def run (program : Option Program) (s : FtdiDmxInterface.State) : RunResult :=
  match program with
  | none => ⟨s, [], [], some (.notLoadedError "No program loaded.")⟩
  | some p =>
    let events := List.insertionSort eventLe (enumerateFrom 0 p)
    match fireEvents s events with
    | (s₁, acts, fired, some e) => ⟨s₁, acts, fired, some e⟩
    | (s₁, acts, fired, none) =>
      match interfaceStopCall s₁ with
      | (s₂, acts₂, err) => ⟨s₂, acts ++ acts₂, fired, err⟩

end DmxController

namespace FtdiDmxInterface

/-- Representation invariant of the channel buffer: 513 byte slots, slot 0
holding the DMX start code 0, watermark at most 512.  `get_channel` returns
no state, so it preserves the invariant trivially. -/
def Inv (s : State) : Prop :=
  s._dmx_channels.length = 513 ∧ s._dmx_channels.getD 0 0 = 0 ∧
  s._highest_updated_channel ≤ 512

instance (s : State) : Decidable (Inv s) := by
  unfold Inv
  exact inferInstance

end FtdiDmxInterface

/-- A channel/value pair acceptable to `set_channel`. -/
def validPair (cv : Int × Int) : Prop :=
  1 ≤ cv.1 ∧ cv.1 ≤ 512 ∧ 0 ≤ cv.2 ∧ cv.2 ≤ 255

instance : DecidablePred validPair := fun cv => by
  unfold validPair
  exact inferInstance

/-- A program all of whose frames contain only valid channel/value pairs. -/
def ValidProgram (p : Program) : Prop :=
  ∀ tf ∈ p, ∀ cv ∈ tf.2, validPair cv

instance (p : Program) : Decidable (ValidProgram p) := by
  unfold ValidProgram
  exact inferInstance

namespace FtdiDmxInterface

lemma set_channel_bad_channel (s : State) {c : Int} (v : Int)
    (hc : ¬ (1 ≤ c ∧ c ≤ 512)) :
    set_channel s c v = (s, some (.rangeError s!"Channel {c} out of range.")) := by
  unfold set_channel CHANNEL_RANGE
  rw [if_pos hc]

lemma set_channel_bad_value (s : State) {c v : Int}
    (hc : 1 ≤ c ∧ c ≤ 512) (hv : ¬ (0 ≤ v ∧ v ≤ 255)) :
    set_channel s c v = (s, some (.rangeError s!"Value {v} out of range.")) := by
  unfold set_channel CHANNEL_RANGE VALUE_RANGE
  rw [if_neg (not_not_intro hc), if_pos hv]

lemma set_channel_valid (s : State) {c v : Int}
    (hc : 1 ≤ c ∧ c ≤ 512) (hv : 0 ≤ v ∧ v ≤ 255) :
    set_channel s c v =
      ({ _dmx_channels := s._dmx_channels.set c.toNat v,
         _highest_updated_channel := max s._highest_updated_channel c.toNat },
       none) := by
  unfold set_channel CHANNEL_RANGE VALUE_RANGE
  rw [if_neg (not_not_intro hc), if_neg (not_not_intro hv)]

lemma get_channel_bad (s : State) {c : Int} (hc : ¬ (1 ≤ c ∧ c ≤ 512)) :
    get_channel s c = .error (.rangeError s!"Channel {c} out of range.") := by
  unfold get_channel CHANNEL_RANGE
  rw [if_pos hc]

lemma get_channel_good (s : State) {c : Int} (hc : 1 ≤ c ∧ c ≤ 512) :
    get_channel s c = .ok (s._dmx_channels.getD c.toNat 0) := by
  unfold get_channel CHANNEL_RANGE
  rw [if_neg (not_not_intro hc)]

lemma Inv.reset (s : State) : Inv (reset s) := by
  refine ⟨?_, rfl, ?_⟩
  · show (List.replicate (CHANNEL_RANGE.2.toNat + 1) (0:Int)).length = 513
    rw [List.length_replicate]
    decide
  · show CHANNEL_RANGE.2.toNat ≤ 512
    decide

lemma Inv.set_channel {s : State} (h : Inv s) (c v : Int) :
    Inv (set_channel s c v).1 := by
  by_cases hc : 1 ≤ c ∧ c ≤ 512
  · by_cases hv : 0 ≤ v ∧ v ≤ 255
    · rw [set_channel_valid s hc hv]
      obtain ⟨hlen, hhead, hwm⟩ := h
      refine ⟨by simpa using hlen, ?_, ?_⟩
      · have hne : c.toNat ≠ 0 := by omega
        simpa [List.getD_eq_getElem?_getD, List.getElem?_set_ne hne]
          using hhead
      · have : c.toNat ≤ 512 := by omega
        simp only [max_le_iff]
        exact ⟨hwm, this⟩
    · rw [set_channel_bad_value s hc hv]
      exact h
  · rw [set_channel_bad_channel s v hc]
    exact h

lemma Inv.render {s : State} (h : Inv s) : Inv (render s).1 := by
  obtain ⟨hlen, hhead, _⟩ := h
  exact ⟨hlen, hhead, Nat.zero_le _⟩

lemma Inv.blackout (s : State) : Inv (blackout s).1 :=
  Inv.render (Inv.reset s)

lemma Inv.initState : Inv initState :=
  Inv.blackout _

lemma reset_eq (s : State) : reset s = ⟨List.replicate 513 0, 512⟩ := by
  unfold reset CHANNEL_RANGE
  norm_num
  decide

end FtdiDmxInterface

/-- C2: every `render()` transmits exactly the buffer prefix
`[0 .. watermark]` inclusive (`watermark + 1` bytes) and then resets the
watermark to 0; the full render that `blackout()` performs (the first
transmission after construction, and after every blackout) is exactly 513
bytes, all zero. -/
theorem render_transmits_watermark_prefix (s : FtdiDmxInterface.State)
    (h : FtdiDmxInterface.Inv s) :
    writesOf (FtdiDmxInterface.render s).2 =
      [s._dmx_channels.take (s._highest_updated_channel + 1)] ∧
    (s._dmx_channels.take (s._highest_updated_channel + 1)).length =
      s._highest_updated_channel + 1 ∧
    (FtdiDmxInterface.render s).1._highest_updated_channel = 0 ∧
    writesOf (FtdiDmxInterface.blackout s).2 = [List.replicate 513 (0:Int)] := by
  refine ⟨rfl, ?_, rfl, ?_⟩
  · rw [List.length_take, h.1]
    have := h.2.2
    omega
  · show writesOf (FtdiDmxInterface.render (FtdiDmxInterface.reset s)).2 = _
    rw [FtdiDmxInterface.reset_eq]
    show [List.take (512 + 1) (List.replicate 513 (0:Int))] = _
    rw [List.take_replicate]
    norm_num

/-- Closed instance of `render_transmits_watermark_prefix` at the
post-construction state. -/
theorem render_transmits_watermark_prefix_witness :
    writesOf (FtdiDmxInterface.render FtdiDmxInterface.initState).2 =
      [FtdiDmxInterface.initState._dmx_channels.take
        (FtdiDmxInterface.initState._highest_updated_channel + 1)] ∧
    (FtdiDmxInterface.initState._dmx_channels.take
        (FtdiDmxInterface.initState._highest_updated_channel + 1)).length =
      FtdiDmxInterface.initState._highest_updated_channel + 1 ∧
    (FtdiDmxInterface.render FtdiDmxInterface.initState).1._highest_updated_channel = 0 ∧
    writesOf (FtdiDmxInterface.blackout FtdiDmxInterface.initState).2 =
      [List.replicate 513 (0:Int)] :=
  render_transmits_watermark_prefix FtdiDmxInterface.initState (by decide)

/-- C3: every `render()` performs, in order: assert break and sleep 96 µs
(at least the required 88 µs), deassert break and sleep 8 µs
(mark-after-break), write the data bytes, then sleep 2 ms settle time —
regardless of the prior Universe state. -/
theorem render_framing_durations (s : FtdiDmxInterface.State) :
    ∃ tBreak tMab tSettle : Timespec, ∃ data : List Int,
      (FtdiDmxInterface.render s).2 =
        [ .set_line_property2 FtdiDmxInterface.BITS_8
            FtdiDmxInterface.STOP_BITS_2 FtdiDmxInterface.PARITY_NONE
            FtdiDmxInterface.BREAK_ON,
          .nanosleep tBreak,
          .set_line_property2 FtdiDmxInterface.BITS_8
            FtdiDmxInterface.STOP_BITS_2 FtdiDmxInterface.PARITY_NONE
            FtdiDmxInterface.BREAK_OFF,
          .nanosleep tMab,
          .write data,
          .nanosleep tSettle ] ∧
      88 * 1000 ≤ tBreak.totalNs ∧
      8 * 1000 ≤ tMab.totalNs ∧
      2 * 1000 * 1000 ≤ tSettle.totalNs :=
  ⟨FtdiDmxInterface._wait_us 96, FtdiDmxInterface._wait_us 8,
   FtdiDmxInterface._wait_ms 2, _, rfl, by decide, by decide, by decide⟩

/-- C4: for every channel in `[1, 512]` and value in `[0, 255]`,
`set_channel` succeeds and a following `get_channel` on the same channel
returns that value. -/
theorem set_then_get_roundtrip (s : FtdiDmxInterface.State) (c v : Int)
    (h : FtdiDmxInterface.Inv s) (hc : 1 ≤ c ∧ c ≤ 512)
    (hv : 0 ≤ v ∧ v ≤ 255) :
    (FtdiDmxInterface.set_channel s c v).2 = none ∧
    FtdiDmxInterface.get_channel (FtdiDmxInterface.set_channel s c v).1 c =
      .ok v := by
  rw [FtdiDmxInterface.set_channel_valid s hc hv]
  refine ⟨rfl, ?_⟩
  rw [FtdiDmxInterface.get_channel_good _ hc]
  have hlt : c.toNat < s._dmx_channels.length := by
    rw [h.1]
    omega
  simp [List.getD_eq_getElem?_getD, List.getElem?_set_self hlt]

/-- Closed instance of `set_then_get_roundtrip` at channel 7, value 42. -/
theorem set_then_get_roundtrip_witness :
    (FtdiDmxInterface.set_channel FtdiDmxInterface.initState 7 42).2 = none ∧
    FtdiDmxInterface.get_channel
      (FtdiDmxInterface.set_channel FtdiDmxInterface.initState 7 42).1 7 =
      .ok 42 :=
  set_then_get_roundtrip FtdiDmxInterface.initState 7 42 (by decide)
    (by decide) (by decide)

/-- C5: an out-of-range channel makes `set_channel` (and `get_channel`) fail
with a `ValueError` naming the channel, and an in-range channel with an
out-of-range value makes `set_channel` fail with a `ValueError` naming the
value; in both cases the returned state is exactly the input state
(`get_channel` is a pure reader and never mutates). -/
theorem set_channel_out_of_range_rejected (s : FtdiDmxInterface.State)
    (c v : Int) :
    (¬ (1 ≤ c ∧ c ≤ 512) →
      FtdiDmxInterface.set_channel s c v =
        (s, some (.rangeError s!"Channel {c} out of range.")) ∧
      FtdiDmxInterface.get_channel s c =
        .error (.rangeError s!"Channel {c} out of range.")) ∧
    ((1 ≤ c ∧ c ≤ 512) → ¬ (0 ≤ v ∧ v ≤ 255) →
      FtdiDmxInterface.set_channel s c v =
        (s, some (.rangeError s!"Value {v} out of range."))) :=
  ⟨fun hc => ⟨FtdiDmxInterface.set_channel_bad_channel s v hc,
              FtdiDmxInterface.get_channel_bad s hc⟩,
   fun hc hv => FtdiDmxInterface.set_channel_bad_value s hc hv⟩

/-- Closed instances of `set_channel_out_of_range_rejected`: channel 0 and
value 256 each rejected with the named error, state unchanged. -/
theorem set_channel_out_of_range_rejected_witness :
    FtdiDmxInterface.set_channel FtdiDmxInterface.initState 0 7 =
      (FtdiDmxInterface.initState,
       some (.rangeError "Channel 0 out of range.")) ∧
    FtdiDmxInterface.set_channel FtdiDmxInterface.initState 1 256 =
      (FtdiDmxInterface.initState,
       some (.rangeError "Value 256 out of range.")) ∧
    FtdiDmxInterface.get_channel FtdiDmxInterface.initState 513 =
      .error (.rangeError "Channel 513 out of range.") :=
  ⟨((set_channel_out_of_range_rejected FtdiDmxInterface.initState 0 7).1
      (by decide)).1,
   (set_channel_out_of_range_rejected FtdiDmxInterface.initState 1 256).2
      (by decide) (by decide),
   ((set_channel_out_of_range_rejected FtdiDmxInterface.initState 513 0).1
      (by decide)).2⟩

/-- C6: `run()` with no loaded program raises
`RuntimeError("No program loaded.")` (the spec's `NotLoadedError`),
schedules no event, performs no device I/O, and leaves the interface state
untouched. -/
theorem run_without_load_no_io (s : FtdiDmxInterface.State) :
    DmxController.run none s =
      ⟨s, [], [], some (.notLoadedError "No program loaded.")⟩ :=
  rfl

/-- C8: a valid `set_channel` stores the value and raises the watermark to
`max(watermark, channel)` unconditionally — the equation holds for every
prior state, in particular when the stored value already equals the new one
— and the watermark never decreases under any `set_channel` call. -/
theorem set_channel_raises_watermark (s : FtdiDmxInterface.State) (c v : Int)
    (h : FtdiDmxInterface.Inv s) (hc : 1 ≤ c ∧ c ≤ 512)
    (hv : 0 ≤ v ∧ v ≤ 255) :
    (FtdiDmxInterface.set_channel s c v).1._dmx_channels.getD c.toNat 0 = v ∧
    (FtdiDmxInterface.set_channel s c v).1._highest_updated_channel =
      max s._highest_updated_channel c.toNat ∧
    ∀ c' v' : Int, s._highest_updated_channel ≤
      (FtdiDmxInterface.set_channel s c' v').1._highest_updated_channel := by
  rw [FtdiDmxInterface.set_channel_valid s hc hv]
  have hlt : c.toNat < s._dmx_channels.length := by
    rw [h.1]
    omega
  refine ⟨?_, rfl, ?_⟩
  · simp [List.getD_eq_getElem?_getD, List.getElem?_set_self hlt]
  · intro c' v'
    by_cases hc' : 1 ≤ c' ∧ c' ≤ 512
    · by_cases hv' : 0 ≤ v' ∧ v' ≤ 255
      · rw [FtdiDmxInterface.set_channel_valid s hc' hv']
        exact Nat.le_max_left _ _
      · rw [FtdiDmxInterface.set_channel_bad_value s hc' hv']
    · rw [FtdiDmxInterface.set_channel_bad_channel s v' hc']

/-- Closed instance of `set_channel_raises_watermark`: at the
post-construction state (all channels 0, watermark 0), writing value 0 to
channel 5 — the value already stored there — still raises the watermark to
5. -/
theorem set_channel_raises_watermark_witness :
    (FtdiDmxInterface.set_channel FtdiDmxInterface.initState 5 0).1._highest_updated_channel
      = max FtdiDmxInterface.initState._highest_updated_channel (5:Int).toNat :=
  (set_channel_raises_watermark FtdiDmxInterface.initState 5 0 (by decide)
    (by decide) (by decide)).2.1

/-- C9: the Universe buffer invariant — 513 byte slots with slot 0
permanently 0 (the start code) and watermark at most 512 — holds after
construction, is established by `reset`, and is preserved by `set_channel`
(both success and error), `render` and `blackout` (`get_channel` returns no
state, so it cannot break it); consequently every transmitted packet begins
with the byte 0. -/
theorem universe_buffer_invariant :
    FtdiDmxInterface.Inv FtdiDmxInterface.initState ∧
    (∀ s, FtdiDmxInterface.Inv (FtdiDmxInterface.reset s)) ∧
    (∀ s c v, FtdiDmxInterface.Inv s →
      FtdiDmxInterface.Inv (FtdiDmxInterface.set_channel s c v).1) ∧
    (∀ s, FtdiDmxInterface.Inv s →
      FtdiDmxInterface.Inv (FtdiDmxInterface.render s).1) ∧
    (∀ s, FtdiDmxInterface.Inv (FtdiDmxInterface.blackout s).1) ∧
    (∀ s, FtdiDmxInterface.Inv s →
      ∀ d ∈ writesOf (FtdiDmxInterface.render s).2, d.getD 0 0 = 0) := by
  refine ⟨FtdiDmxInterface.Inv.initState, FtdiDmxInterface.Inv.reset,
    fun s c v h => h.set_channel c v, fun s h => h.render,
    FtdiDmxInterface.Inv.blackout, ?_⟩
  intro s hs d hd
  have hd' : d = s._dmx_channels.take (s._highest_updated_channel + 1) :=
    List.mem_singleton.mp hd
  subst hd'
  rw [List.getD_eq_getElem?_getD, List.getElem?_take,
    if_pos (Nat.succ_pos _), ← List.getD_eq_getElem?_getD]
  exact hs.2.1

/-- Closed instance of `universe_buffer_invariant`: the invariant survives a
`set_channel` and the packet of a subsequent `render` starts with byte 0. -/
theorem universe_buffer_invariant_witness :
    FtdiDmxInterface.Inv
      (FtdiDmxInterface.set_channel FtdiDmxInterface.initState 3 9).1 :=
  universe_buffer_invariant.2.2.1 FtdiDmxInterface.initState 3 9 (by decide)

/-- C10 (implicit): `set_channel` checks the channel range before the value
range, so when both arguments are out of range the raised error names the
channel, and the state is returned unchanged. -/
theorem channel_check_precedes_value_check (s : FtdiDmxInterface.State)
    (c v : Int) (hc : ¬ (1 ≤ c ∧ c ≤ 512)) (_hv : ¬ (0 ≤ v ∧ v ≤ 255)) :
    FtdiDmxInterface.set_channel s c v =
      (s, some (.rangeError s!"Channel {c} out of range.")) :=
  FtdiDmxInterface.set_channel_bad_channel s v hc

/-- Closed instance of `channel_check_precedes_value_check` at
`set_channel(0, 256)`: both arguments out of range, error names the
channel. -/
theorem channel_check_precedes_value_check_witness :
    FtdiDmxInterface.set_channel FtdiDmxInterface.initState 0 256 =
      (FtdiDmxInterface.initState,
       some (.rangeError "Channel 0 out of range.")) :=
  channel_check_precedes_value_check FtdiDmxInterface.initState 0 256
    (by decide) (by decide)

namespace DmxController

lemma enumerateFrom_length (i : ℕ) (p : Program) :
    (enumerateFrom i p).length = p.length := by
  induction p generalizing i with
  | nil => rfl
  | cons tf rest ih =>
    obtain ⟨t, f⟩ := tf
    simp [enumerateFrom, ih]

lemma enumerateFrom_idx_ge (i : ℕ) (p : Program) :
    ∀ ev ∈ enumerateFrom i p, i ≤ ev.2.1 := by
  induction p generalizing i with
  | nil =>
    intro ev h
    cases h
  | cons tf rest ih =>
    obtain ⟨t, f⟩ := tf
    intro ev h
    rcases List.mem_cons.mp h with h | h
    · subst h
      exact Nat.le_refl i
    · exact Nat.le_of_succ_le (ih (i + 1) ev h)

lemma enumerateFrom_idx_pairwise (i : ℕ) (p : Program) :
    List.Pairwise (fun a b : Event => a.2.1 < b.2.1) (enumerateFrom i p) := by
  induction p generalizing i with
  | nil => exact List.Pairwise.nil
  | cons tf rest ih =>
    obtain ⟨t, f⟩ := tf
    refine List.Pairwise.cons ?_ (ih (i + 1))
    intro ev hev
    have := enumerateFrom_idx_ge (i + 1) rest ev hev
    show i < ev.2.1
    omega

lemma enumerateFrom_mem_frame {i : ℕ} {p : Program} {ev : Event}
    (h : ev ∈ enumerateFrom i p) : (ev.1, ev.2.2) ∈ p := by
  induction p generalizing i with
  | nil => cases h
  | cons tf rest ih =>
    obtain ⟨t, f⟩ := tf
    rcases List.mem_cons.mp h with h | h
    · subst h
      exact List.mem_cons_self _ _
    · exact List.mem_cons_of_mem _ (ih h)

lemma applyFrame_valid (f : Frame) (s : FtdiDmxInterface.State)
    (hf : ∀ cv ∈ f, validPair cv) :
    ∃ s', applyFrame s f = (s', none) := by
  induction f generalizing s with
  | nil => exact ⟨s, rfl⟩
  | cons cv rest ih =>
    obtain ⟨c, v⟩ := cv
    obtain ⟨h1, h2, h3, h4⟩ := hf (c, v) (List.mem_cons_self _ _)
    simp only [applyFrame,
      FtdiDmxInterface.set_channel_valid s ⟨h1, h2⟩ ⟨h3, h4⟩]
    exact ih _ fun cv h => hf cv (List.mem_cons_of_mem _ h)

lemma scheduler_callback_valid (f : Frame) (s : FtdiDmxInterface.State)
    (hf : ∀ cv ∈ f, validPair cv) :
    ∃ s' data, _scheduler_callback s f =
      (s', FtdiDmxInterface.renderActions data, none) := by
  obtain ⟨s₀, h⟩ := applyFrame_valid f s hf
  exact ⟨{ s₀ with _highest_updated_channel := 0 },
    s₀._dmx_channels.take (s₀._highest_updated_channel + 1),
    by simp only [_scheduler_callback, h, FtdiDmxInterface.render]⟩

lemma fireEvents_valid (evs : List Event) (s : FtdiDmxInterface.State)
    (h : ∀ ev ∈ evs, ∀ cv ∈ ev.2.2, validPair cv) :
    ∃ (s' : FtdiDmxInterface.State) (datas : List (List Int)),
      fireEvents s evs =
        (s', (datas.map FtdiDmxInterface.renderActions).flatten, evs, none) ∧
      datas.length = evs.length := by
  induction evs generalizing s with
  | nil => exact ⟨s, [], rfl, rfl⟩
  | cons ev rest ih =>
    obtain ⟨s₁, data, hcb⟩ := scheduler_callback_valid ev.2.2 s
      (h ev (List.mem_cons_self _ _))
    obtain ⟨s₂, datas, hrec, hlen⟩ := ih s₁
      fun e he => h e (List.mem_cons_of_mem _ he)
    refine ⟨s₂, data :: datas, ?_, by simp [hlen]⟩
    simp only [fireEvents, hcb, hrec, List.map_cons, List.flatten_cons]

lemma run_loaded_eq (p : Program) (s : FtdiDmxInterface.State)
    (hv : ValidProgram p) :
    ∃ (s' : FtdiDmxInterface.State) (datas : List (List Int)),
      run (some p) s =
        ⟨s', (datas.map FtdiDmxInterface.renderActions).flatten,
         List.insertionSort eventLe (enumerateFrom 0 p),
         some (.attributeError
           "FtdiDmxInterface object has no attribute stop")⟩ ∧
      datas.length = p.length := by
  have hall : ∀ ev ∈ List.insertionSort eventLe (enumerateFrom 0 p),
      ∀ cv ∈ ev.2.2, validPair cv := by
    intro ev hev
    have hmem : ev ∈ enumerateFrom 0 p :=
      (List.perm_insertionSort eventLe _).mem_iff.mp hev
    exact hv _ (enumerateFrom_mem_frame hmem)
  obtain ⟨s', datas, hfe, hlen⟩ := fireEvents_valid _ s hall
  refine ⟨s', datas, ?_, ?_⟩
  · simp only [run, hfe, interfaceStopCall]
    rw [if_neg (by decide)]
    simp
  · rw [hlen, (List.perm_insertionSort eventLe _).length_eq,
      enumerateFrom_length]

lemma countP_flatten_renderActions (datas : List (List Int)) :
    ((datas.map FtdiDmxInterface.renderActions).flatten.countP
      DmxAction.isWrite) = datas.length := by
  induction datas with
  | nil => rfl
  | cons d rest ih =>
    simp only [List.map_cons, List.flatten_cons, List.countP_append, ih]
    simp [FtdiDmxInterface.renderActions, List.countP_cons, DmxAction.isWrite]
    omega

end DmxController

/-- C7: for every loaded program whose frames are all in range, `run()`
schedules one event per `(time, frame)` entry (keyed by time with the
enumeration index as tie-break), the events fire in strictly ascending
`(time, index)` order, and each event applies its whole frame and then
issues exactly one render: the device trace of the run is the
concatenation of exactly one framed packet per event — never one packet
per channel. -/
theorem run_fires_sorted_batched (p : Program) (s : FtdiDmxInterface.State)
    (hv : ValidProgram p) :
    (DmxController.run (some p) s).fired.Perm
      (DmxController.enumerateFrom 0 p) ∧
    List.Pairwise DmxController.eventLt (DmxController.run (some p) s).fired ∧
    (∃ datas : List (List Int),
      datas.length = p.length ∧
      (DmxController.run (some p) s).actions =
        (datas.map FtdiDmxInterface.renderActions).flatten) ∧
    ((DmxController.run (some p) s).actions.countP DmxAction.isWrite) =
      p.length := by
  obtain ⟨s', datas, hrun, hlen⟩ := DmxController.run_loaded_eq p s hv
  rw [hrun]
  refine ⟨List.perm_insertionSort DmxController.eventLe _, ?_,
    ⟨datas, hlen, rfl⟩, ?_⟩
  · have hsorted := List.sorted_insertionSort DmxController.eventLe
      (DmxController.enumerateFrom 0 p)
    have hne : List.Pairwise (fun a b : DmxController.Event => a.2.1 ≠ b.2.1)
        (List.insertionSort DmxController.eventLe
          (DmxController.enumerateFrom 0 p)) := by
      have h0 := (DmxController.enumerateFrom_idx_pairwise 0 p).imp
        fun h => Nat.ne_of_lt h
      exact ((List.perm_insertionSort DmxController.eventLe _).pairwise_iff
        fun h => Ne.symm h).mpr h0
    refine (hsorted.and hne).imp ?_
    rintro a b ⟨hle, hab⟩
    rcases hle with h | ⟨h, h'⟩
    · exact Or.inl h
    · exact Or.inr ⟨h, lt_of_le_of_ne h' hab⟩
  · rw [DmxController.countP_flatten_renderActions, hlen]

/-- Closed instance of `run_fires_sorted_batched`: a two-event program
produces exactly two serial writes (one per event). -/
theorem run_fires_sorted_batched_witness :
    ((DmxController.run (some [((0:ℚ), [((1:Int), (255:Int))]),
        ((1:ℚ), [((2:Int), (3:Int))])])
      FtdiDmxInterface.initState).actions.countP DmxAction.isWrite) = 2 :=
  (run_fires_sorted_batched _ FtdiDmxInterface.initState (by decide)).2.2.2

/-- C1 (code bug): after the final scheduled event, `run()` executes
`self._interface.stop()`, but class `FtdiDmxInterface` defines no attribute
`stop`, so `run()` raises `AttributeError` instead of forcing a blackout
render and returning normally.  On the one-event program `{0.0: {1: 255}}`
the escaping error is that `AttributeError`, and the only transmitted
packet of the whole run is the event's own 2-byte packet `[0, 255]` — no
513-byte all-zero blackout packet follows it. -/
theorem run_missing_stop_method :
    "stop" ∉ FtdiDmxInterface.classAttrs ∧
    (DmxController.run (some [((0:ℚ), [((1:Int), (255:Int))])])
        FtdiDmxInterface.initState).error =
      some (.attributeError "FtdiDmxInterface object has no attribute stop") ∧
    writesOf (DmxController.run (some [((0:ℚ), [((1:Int), (255:Int))])])
        FtdiDmxInterface.initState).actions = [[0, 255]] :=
  ⟨by decide, by decide, by decide⟩
